import Mathlib

/-!
Verification of the gesture-driven state transition engine and particle
choreography system of the christmas-tree repository.

The embedding is shallow: each TypeScript function relevant to the verified
properties is translated into a Lean definition over exact arithmetic
(`ℚ` for the geometry/choreography, `ℝ` for the exponential camera
smoothing).  Square-root comparisons `Math.sqrt e < c` from the source are
embedded as the equivalent `e < c * c` (both sides are nonnegative and
squaring is monotone), so the definitions stay computable.
-/

/-! ## Landmark geometry classifier (src/hooks/useHandGesture.ts) -/

/-- One MediaPipe hand landmark: a normalized 3D point.
Mirrors the `{x, y, z}` objects consumed by `detectGesture`. -/
structure Landmark where
  x : ℚ
  y : ℚ
  z : ℚ
deriving Repr, DecidableEq

instance : Inhabited Landmark := ⟨⟨0, 0, 0⟩⟩

/-- Squared 3D Euclidean distance between two landmarks.  The source's
`calculateFingerDistance` returns `Math.sqrt` of this quantity; every use
compares it against a positive constant, so we keep the square
(`sqrt d < c ↔ d < c * c` for `c > 0`, `d ≥ 0`). -/
def distSq (p1 p2 : Landmark) : ℚ :=
  (p1.x - p2.x) * (p1.x - p2.x) + (p1.y - p2.y) * (p1.y - p2.y) +
    (p1.z - p2.z) * (p1.z - p2.z)

/-- Gesture symbol `GestureType` from src/types/christmas.ts:
`'none' | 'fist' | 'open' | 'pinch' | 'pointing'`.
(`open` is a Lean keyword, hence the trailing underscore.) -/
inductive GestureType where
  | none
  | fist
  | open_
  | pinch
  | pointing
deriving Repr, DecidableEq

/-- Extension test `landmarks[tip].y < landmarks[mcp].y` of
`detectGesture` (tip above its MCP joint on screen). -/
def fingerExtended (landmarks : List Landmark) (tip mcp : ℕ) : Bool :=
  decide ((landmarks.getD tip default).y < (landmarks.getD mcp default).y)

/-- Count `[indexExtended, middleExtended, ringExtended, pinkyExtended].filter(Boolean).length`
from `detectGesture`: tips 8/12/16/20 against MCPs 5/9/13/17. -/
def extendedCount (landmarks : List Landmark) : ℕ :=
  ([fingerExtended landmarks 8 5, fingerExtended landmarks 12 9,
    fingerExtended landmarks 16 13, fingerExtended landmarks 20 17].filter
    (fun b => b)).length

/-- Squared thumb-tip(4) to index-tip(8) distance
(`calculateFingerDistance(landmarks, 4, 8)` squared). -/
def pinchDistSq (landmarks : List Landmark) : ℚ :=
  distSq (landmarks.getD 4 default) (landmarks.getD 8 default)

/-- Classifier `detectGesture` from src/hooks/useHandGesture.ts.
Priority order exactly as in the source: landmark-count guard, pinch
threshold 0.06 (compared squared), extension count ≥ 3 → open,
≤ 1 → fist, exactly-index branch → pointing, otherwise none. -/
def detectGesture (landmarks : List Landmark) : GestureType :=
  if landmarks.length < 21 then GestureType.none
  else if pinchDistSq landmarks < (6 / 100 : ℚ) * (6 / 100) then GestureType.pinch
  else if 3 ≤ extendedCount landmarks then GestureType.open_
  else if extendedCount landmarks ≤ 1 then GestureType.fist
  else if fingerExtended landmarks 8 5 && !fingerExtended landmarks 12 9 &&
          !fingerExtended landmarks 16 13 && !fingerExtended landmarks 20 17 then
    GestureType.pointing
  else GestureType.none

/-! ## Gesture stabilizer (`onResults` in src/hooks/useHandGesture.ts) -/

/-- The mutable state of the `useHandGesture` hook: the `HandGestureState`
React state (`gesture`, `handPosition`, `pinchDistance`, `isTracking`),
the `lastGestureRef` ref cell, plus the record of `onGestureChange`
callback invocations (`emitted`), newest last.  `pinchDistanceSq` stores
the square of the source's `pinchDistance`. -/
structure TrackerState where
  gesture : GestureType
  handPosition : Option (ℚ × ℚ)
  pinchDistanceSq : ℚ
  isTracking : Bool
  lastGesture : GestureType
  emitted : List GestureType
deriving Repr, DecidableEq

/-- Initial hook state: `gesture: 'none'`, `handPosition: null`,
`pinchDistance: 1` (so squared is also 1), `isTracking: false`,
`lastGestureRef` initialized to `'none'`, no callbacks yet. -/
def initialTrackerState : TrackerState :=
  { gesture := GestureType.none
    handPosition := Option.none
    pinchDistanceSq := 1
    isTracking := false
    lastGesture := GestureType.none
    emitted := [] }

/-- Frame handler `onResults` from src/hooks/useHandGesture.ts.  The frame carries the
first element of `multiHandLandmarks` when a hand is detected, `none`
otherwise.  With a hand: classify, mirror the palm center (landmark 9)
into `handPosition`, recompute the pinch distance, and—only when the
classified gesture differs from `lastGestureRef`—update the ref and invoke
the gesture-change callback.  Without a hand: clear `isTracking` and
`handPosition`, leaving everything else (including `lastGestureRef`)
untouched. -/
def onResults (frame : Option (List Landmark)) (s : TrackerState) : TrackerState :=
  match frame with
  | Option.some landmarks =>
    let gesture := detectGesture landmarks
    let palmCenter := landmarks.getD 9 default
    let handPos : ℚ × ℚ := (1 - palmCenter.x, palmCenter.y)
    let pDistSq := pinchDistSq landmarks
    if gesture ≠ s.lastGesture then
      { gesture := gesture, handPosition := Option.some handPos,
        pinchDistanceSq := pDistSq, isTracking := true,
        lastGesture := gesture, emitted := s.emitted ++ [gesture] }
    else
      { gesture := gesture, handPosition := Option.some handPos,
        pinchDistanceSq := pDistSq, isTracking := true,
        lastGesture := s.lastGesture, emitted := s.emitted }
  | Option.none =>
    { s with isTracking := false, handPosition := Option.none }

/-- Run `onResults` over a sequence of frames, oldest first. -/
def runFrames (frames : List (Option (List Landmark))) (s : TrackerState) :
    TrackerState :=
  frames.foldl (fun st f => onResults f st) s

/-! ## Scene state machine (`handleGestureChange` in src/pages/Index.tsx) -/

/-- Scene mode `TreeState` from src/types/christmas.ts: `'tree' | 'galaxy' | 'focus'`. -/
inductive TreeState where
  | tree
  | galaxy
  | focus
deriving Repr, DecidableEq

/-- The two state variables the gesture handler touches:
`treeState` and `focusedPhotoIndex` (a nullable integer). -/
structure IndexState where
  treeState : TreeState
  focusedPhotoIndex : Option ℤ
deriving Repr, DecidableEq

/-- Initial page state: `treeState = 'tree'`, `focusedPhotoIndex = null`. -/
def initialIndexState : IndexState :=
  { treeState := TreeState.tree, focusedPhotoIndex := Option.none }

/-- Value `Math.min(photoCount, 12)` where
`photoCount = photos.length > 0 ? photos.length : 12`, from the pinch
branch of `handleGestureChange` in src/pages/Index.tsx. -/
def selectCapacity (photoCount : ℕ) : ℕ :=
  min (if 0 < photoCount then photoCount else 12) 12

/-- Transition function `handleGestureChange` from src/pages/Index.tsx.  `photoCount` is
`photos.length`; `r` is the `Math.random()` draw used in the pinch branch
(`Math.floor(r * Math.min(photoCount, 12))`).  Gestures other than
fist/open/pinch fall through the `switch` and leave the state unchanged. -/
def handleGestureChange (photoCount : ℕ) (r : ℚ) (gesture : GestureType)
    (s : IndexState) : IndexState :=
  match gesture with
  | GestureType.fist =>
    { treeState := TreeState.tree, focusedPhotoIndex := Option.none }
  | GestureType.open_ =>
    { treeState := TreeState.galaxy, focusedPhotoIndex := Option.none }
  | GestureType.pinch =>
    if s.treeState = TreeState.galaxy then
      { treeState := TreeState.focus,
        focusedPhotoIndex := Option.some ⌊r * (selectCapacity photoCount : ℚ)⌋ }
    else if s.treeState = TreeState.focus then
      { treeState := TreeState.galaxy, focusedPhotoIndex := Option.none }
    else s
  | _ => s

/-- Run the state machine over a sequence of gesture events (each paired
with the random draw consumed if its pinch branch fires), starting from
the initial page state. -/
def runGestures (photoCount : ℕ) (events : List (GestureType × ℚ)) : IndexState :=
  events.foldl (fun s e => handleGestureChange photoCount e.2 e.1 s) initialIndexState

/-! ## Transition choreographer (`ParticleSystem` in
src/components/christmas/ParticleSystem.tsx) -/

/-- Clamped stagger `Math.max(0, Math.min(1, progress * 1.5 - delay * 0.5))`: the staggered
local progress of a particle with delay fraction `delay` at global
transition progress `progress` (line `const staggered = ...`). -/
def staggeredProgress (progress delay : ℚ) : ℚ :=
  max 0 (min 1 (progress * (3 / 2) - delay * (1 / 2)))

/-- Cubic `staggered * staggered * (3 - 2 * staggered)`: the smoothstep remap
(line `const smooth = ...`). -/
def smoothstep (p : ℚ) : ℚ :=
  p * p * (3 - 2 * p)

/-- The per-element eased progress actually multiplied into the linear
interpolation: smoothstep of the clamped staggered progress. -/
def easedProgress (progress delay : ℚ) : ℚ :=
  smoothstep (staggeredProgress progress delay)

/-- A 3D position (`[number, number, number]` in the source). -/
structure Vec3 where
  x : ℚ
  y : ℚ
  z : ℚ
deriving Repr, DecidableEq

/-- The interpolated particle position
`treePos[i] + (galaxyPos[i] - treePos[i]) * smooth` componentwise
(the three `const x/y/z = ...` lines of the `useFrame` body, before the
breathing offset is added to `y`). -/
def interpolatedPosition (treePos galaxyPos : Vec3) (delay progress : ℚ) : Vec3 :=
  let smooth := easedProgress progress delay
  { x := treePos.x + (galaxyPos.x - treePos.x) * smooth
    y := treePos.y + (galaxyPos.y - treePos.y) * smooth
    z := treePos.z + (galaxyPos.z - treePos.z) * smooth }

/-! ## Camera controller (`CameraController` in the Scene variant bundled in
src/components/christmas/ParticleSystem.tsx) -/

/-- One smoothing step of the camera controller along one axis:
`smoothFactor = 1 - Math.exp(-3 * delta)` followed by
`position += (target - position) * smoothFactor`. -/
noncomputable def cameraStep (target actual dt : ℝ) : ℝ :=
  actual + (target - actual) * (1 - Real.exp (-3 * dt))

/-- Iterate the camera smoothing step over a list of frame delta-times,
oldest first, with a fixed target. -/
noncomputable def cameraRun (target actual : ℝ) (dts : List ℝ) : ℝ :=
  dts.foldl (fun a dt => cameraStep target a dt) actual

/-! ## Concrete landmark sets used for sanity checks and witnesses -/

/-- 21 coincident points: thumb–index distance 0 < 0.06, so a pinch. -/
def pinchLandmarks : List Landmark :=
  [⟨0,0,0⟩, ⟨0,0,0⟩, ⟨0,0,0⟩, ⟨0,0,0⟩, ⟨0,0,0⟩,
   ⟨0,0,0⟩, ⟨0,0,0⟩, ⟨0,0,0⟩, ⟨0,0,0⟩, ⟨0,0,0⟩,
   ⟨0,0,0⟩, ⟨0,0,0⟩, ⟨0,0,0⟩, ⟨0,0,0⟩, ⟨0,0,0⟩,
   ⟨0,0,0⟩, ⟨0,0,0⟩, ⟨0,0,0⟩, ⟨0,0,0⟩, ⟨0,0,0⟩, ⟨0,0,0⟩]

/-- 21 points, index tip pushed away from the thumb (no pinch), no finger
tip above its MCP: a fist. -/
def fistLandmarks : List Landmark :=
  [⟨0,0,0⟩, ⟨0,0,0⟩, ⟨0,0,0⟩, ⟨0,0,0⟩, ⟨0,0,0⟩,
   ⟨0,0,0⟩, ⟨0,0,0⟩, ⟨0,0,0⟩, ⟨1,1,1⟩, ⟨0,0,0⟩,
   ⟨0,0,0⟩, ⟨0,0,0⟩, ⟨0,0,0⟩, ⟨0,0,0⟩, ⟨0,0,0⟩,
   ⟨0,0,0⟩, ⟨0,0,0⟩, ⟨0,0,0⟩, ⟨0,0,0⟩, ⟨0,0,0⟩, ⟨0,0,0⟩]

/-- 21 points, no pinch, index/middle/ring tips above their MCPs: open. -/
def openLandmarks : List Landmark :=
  [⟨0,0,0⟩, ⟨0,0,0⟩, ⟨0,0,0⟩, ⟨0,0,0⟩, ⟨0,0,0⟩,
   ⟨0,0,0⟩, ⟨0,0,0⟩, ⟨0,0,0⟩, ⟨1,-1,1⟩, ⟨0,0,0⟩,
   ⟨0,0,0⟩, ⟨0,0,0⟩, ⟨0,-1,0⟩, ⟨0,0,0⟩, ⟨0,0,0⟩,
   ⟨0,0,0⟩, ⟨0,-1,0⟩, ⟨0,0,0⟩, ⟨0,0,0⟩, ⟨0,0,0⟩, ⟨0,0,0⟩]

/-- Sanity check: the coincident hand classifies as a pinch. -/
theorem detectGesture_pinchLandmarks : detectGesture pinchLandmarks = GestureType.pinch := by
  norm_num [detectGesture, pinchDistSq, distSq, pinchLandmarks]

/-- Sanity check: the curled hand classifies as a fist. -/
theorem detectGesture_fistLandmarks : detectGesture fistLandmarks = GestureType.fist := by
  norm_num [detectGesture, pinchDistSq, distSq, extendedCount, fingerExtended,
    fistLandmarks]

/-- Sanity check: the three-fingers-up hand classifies as open. -/
theorem detectGesture_openLandmarks : detectGesture openLandmarks = GestureType.open_ := by
  norm_num [detectGesture, pinchDistSq, distSq, extendedCount, fingerExtended,
    openLandmarks]

/-- Sanity check: the empty landmark list fails closed to none. -/
theorem detectGesture_nil : detectGesture [] = GestureType.none := by
  norm_num [detectGesture]

/-! ## Claims about the classifier -/

/-- C3.  Pinch precedence: for every hand-landmark set with at least 21
points whose thumb-tip(4) to index-tip(8) 3D Euclidean distance is
strictly below 0.06 (equivalently, squared distance below 0.06²),
`detectGesture` returns Pinch regardless of finger extension. -/
theorem detectGesture_pinch_precedence (landmarks : List Landmark)
    (hlen : 21 ≤ landmarks.length)
    (hdist : pinchDistSq landmarks < (6 / 100 : ℚ) * (6 / 100)) :
    detectGesture landmarks = GestureType.pinch := by
  unfold detectGesture
  rw [if_neg (by omega), if_pos hdist]

/-- Witness for C3: the coincident 21-point hand satisfies both
hypotheses and is classified as Pinch. -/
theorem detectGesture_pinch_precedence_witness :
    21 ≤ pinchLandmarks.length ∧
    pinchDistSq pinchLandmarks < (6 / 100 : ℚ) * (6 / 100) ∧
    detectGesture pinchLandmarks = GestureType.pinch :=
  ⟨by norm_num [pinchLandmarks],
   by norm_num [pinchDistSq, distSq, pinchLandmarks],
   detectGesture_pinch_precedence pinchLandmarks (by norm_num [pinchLandmarks])
     (by norm_num [pinchDistSq, distSq, pinchLandmarks])⟩

/-- C4.  Extension-count classification: with at least 21 points and
thumb-index distance at least 0.06, `detectGesture` returns Open when at
least 3 of {index, middle, ring, pinky} are extended (tip.y < mcp.y) and
Fist when at most 1 is extended. -/
theorem detectGesture_extension_classification (landmarks : List Landmark)
    (hlen : 21 ≤ landmarks.length)
    (hdist : (6 / 100 : ℚ) * (6 / 100) ≤ pinchDistSq landmarks) :
    (3 ≤ extendedCount landmarks → detectGesture landmarks = GestureType.open_) ∧
    (extendedCount landmarks ≤ 1 → detectGesture landmarks = GestureType.fist) := by
  unfold detectGesture
  rw [if_neg (by omega), if_neg (not_lt.mpr hdist)]
  constructor
  · intro h3
    rw [if_pos h3]
  · intro h1
    rw [if_neg (by omega), if_pos h1]

/-- Witness for C4: the open hand (3 extended fingers) is classified Open
and the curled hand (0 extended fingers) Fist, both with the distance
hypothesis discharged concretely. -/
theorem detectGesture_extension_classification_witness :
    (3 ≤ extendedCount openLandmarks ∧ detectGesture openLandmarks = GestureType.open_) ∧
    (extendedCount fistLandmarks ≤ 1 ∧ detectGesture fistLandmarks = GestureType.fist) :=
  ⟨⟨by norm_num [extendedCount, fingerExtended, openLandmarks],
    (detectGesture_extension_classification openLandmarks
      (by norm_num [openLandmarks])
      (by norm_num [pinchDistSq, distSq, openLandmarks])).1
      (by norm_num [extendedCount, fingerExtended, openLandmarks])⟩,
   ⟨by norm_num [extendedCount, fingerExtended, fistLandmarks],
    (detectGesture_extension_classification fistLandmarks
      (by norm_num [fistLandmarks])
      (by norm_num [pinchDistSq, distSq, fistLandmarks])).2
      (by norm_num [extendedCount, fingerExtended, fistLandmarks])⟩⟩

/-- C9.  The classifier never returns Pointing: the pointing branch
requires exactly the index finger extended, which makes the extended
count 1, but that case is already captured by the Fist branch. -/
theorem detectGesture_ne_pointing (landmarks : List Landmark) :
    detectGesture landmarks ≠ GestureType.pointing := by
  unfold detectGesture
  split_ifs with h1 h2 h3 h4 h5
  · simp
  · simp
  · simp
  · simp
  · exfalso
    simp only [Bool.and_eq_true, Bool.not_eq_true'] at h5
    obtain ⟨⟨⟨hi, hm⟩, hr⟩, hp⟩ := h5
    have hcount : extendedCount landmarks = 1 := by
      simp [extendedCount, hi, hm, hr, hp]
    omega
  · simp

/-! ## Claims about the scene state machine -/

/-- Helper: one gesture event preserves the focus invariant
(`focusedPhotoIndex` non-null iff `treeState = focus`). -/
theorem handleGestureChange_preserves_focus (photoCount : ℕ) (r : ℚ)
    (g : GestureType) (s : IndexState)
    (h : s.focusedPhotoIndex ≠ Option.none ↔ s.treeState = TreeState.focus) :
    (handleGestureChange photoCount r g s).focusedPhotoIndex ≠ Option.none ↔
      (handleGestureChange photoCount r g s).treeState = TreeState.focus := by
  cases g with
  | none => exact h
  | fist => simp [handleGestureChange]
  | open_ => simp [handleGestureChange]
  | pinch =>
    simp only [handleGestureChange]
    split_ifs with hg hf
    · simp
    · simp
    · exact h
  | pointing => exact h

/-- Helper: the focus invariant propagates through any event list. -/
theorem foldl_preserves_focus (photoCount : ℕ) (events : List (GestureType × ℚ)) :
    ∀ s : IndexState,
      (s.focusedPhotoIndex ≠ Option.none ↔ s.treeState = TreeState.focus) →
      ((events.foldl (fun s e => handleGestureChange photoCount e.2 e.1 s) s).focusedPhotoIndex
          ≠ Option.none ↔
        (events.foldl (fun s e => handleGestureChange photoCount e.2 e.1 s) s).treeState
          = TreeState.focus) := by
  induction events with
  | nil => intro s h; exact h
  | cons e rest ih =>
    intro s h
    exact ih _ (handleGestureChange_preserves_focus photoCount e.2 e.1 s h)

/-- C1.  Focus invariant: starting from the initial state (tree mode, no
focused photo), after any sequence of gesture events processed by
`handleGestureChange`, the focused photo index is non-null exactly when
the scene mode is focus. -/
theorem focus_invariant (photoCount : ℕ) (events : List (GestureType × ℚ)) :
    (runGestures photoCount events).focusedPhotoIndex ≠ Option.none ↔
      (runGestures photoCount events).treeState = TreeState.focus := by
  unfold runGestures
  exact foldl_preserves_focus photoCount events initialIndexState
    (by simp [initialIndexState])

/-- C2.  Pinch in galaxy mode: the machine moves to focus mode and the
selected index lies in [0, min(photoCount, 12)); in particular with 100
photos the index lies in [0, 100). -/
theorem pinch_focus_selection (photoCount : ℕ) (r : ℚ) (s : IndexState)
    (hr0 : 0 ≤ r) (hr1 : r < 1) (hs : s.treeState = TreeState.galaxy) :
    (handleGestureChange photoCount r GestureType.pinch s).treeState = TreeState.focus ∧
    ∃ i : ℤ,
      (handleGestureChange photoCount r GestureType.pinch s).focusedPhotoIndex
        = Option.some i ∧
      0 ≤ i ∧ i < (selectCapacity photoCount : ℤ) ∧ (photoCount = 100 → i < 100) := by
  have hcap1 : 1 ≤ selectCapacity photoCount := by
    unfold selectCapacity
    split <;> omega
  have hcapQ : (0 : ℚ) < (selectCapacity photoCount : ℚ) := by
    exact_mod_cast hcap1
  have hlt : ⌊r * (selectCapacity photoCount : ℚ)⌋ < (selectCapacity photoCount : ℤ) :=
    Int.floor_lt.mpr (by simpa using mul_lt_of_lt_one_left hcapQ hr1)
  have hred : handleGestureChange photoCount r GestureType.pinch s =
      { treeState := TreeState.focus,
        focusedPhotoIndex := Option.some ⌊r * (selectCapacity photoCount : ℚ)⌋ } := by
    simp [handleGestureChange, hs]
  rw [hred]
  refine ⟨rfl, ⌊r * (selectCapacity photoCount : ℚ)⌋, rfl, ?_, hlt, ?_⟩
  · exact Int.le_floor.mpr (by simpa using mul_nonneg hr0 hcapQ.le)
  · intro h100
    subst h100
    have h12 : (selectCapacity 100 : ℤ) = 12 := by norm_num [selectCapacity]
    omega

/-- Witness for C2: with 100 photos, random draw 1/2 and the machine in
galaxy mode, a pinch moves it to focus with index in range. -/
theorem pinch_focus_selection_witness :
    (0 : ℚ) ≤ 1 / 2 ∧ (1 / 2 : ℚ) < 1 ∧
    ((handleGestureChange 100 (1 / 2) GestureType.pinch
        { treeState := TreeState.galaxy, focusedPhotoIndex := Option.none }).treeState
      = TreeState.focus ∧
    ∃ i : ℤ,
      (handleGestureChange 100 (1 / 2) GestureType.pinch
          { treeState := TreeState.galaxy, focusedPhotoIndex := Option.none }).focusedPhotoIndex
        = Option.some i ∧
      0 ≤ i ∧ i < (selectCapacity 100 : ℤ) ∧ (100 = 100 → i < 100)) :=
  ⟨by norm_num, by norm_num,
   pinch_focus_selection 100 (1 / 2)
     { treeState := TreeState.galaxy, focusedPhotoIndex := Option.none }
     (by norm_num) (by norm_num) rfl⟩

/-! ## Claims about the gesture stabilizer -/

/-- Helper: a frame whose classification equals the remembered gesture is
absorbed (no callback, ref unchanged). -/
theorem onResults_absorb (landmarks : List Landmark) (s : TrackerState)
    (h : detectGesture landmarks = s.lastGesture) :
    (onResults (Option.some landmarks) s).emitted = s.emitted ∧
    (onResults (Option.some landmarks) s).lastGesture = s.lastGesture := by
  simp [onResults, h]

/-- Helper: a frame whose classification differs from the remembered
gesture fires exactly one callback with the new symbol. -/
theorem onResults_emit (landmarks : List Landmark) (s : TrackerState)
    (h : detectGesture landmarks ≠ s.lastGesture) :
    (onResults (Option.some landmarks) s).emitted
        = s.emitted ++ [detectGesture landmarks] ∧
    (onResults (Option.some landmarks) s).lastGesture = detectGesture landmarks := by
  simp [onResults, h]

/-- Helper: a run of frames all classifying to the remembered gesture
emits nothing and leaves the remembered gesture in place. -/
theorem runFrames_absorb (g : GestureType) (frames : List (List Landmark)) :
    ∀ s : TrackerState, (∀ f ∈ frames, detectGesture f = g) → s.lastGesture = g →
      (runFrames (frames.map Option.some) s).emitted = s.emitted ∧
      (runFrames (frames.map Option.some) s).lastGesture = g := by
  induction frames with
  | nil => intro s _ hlast; exact ⟨rfl, hlast⟩
  | cons f rest ih =>
    intro s hcls hlast
    have hf : detectGesture f = s.lastGesture := by
      rw [hlast]; exact hcls f (by simp)
    have habs := onResults_absorb f s hf
    have step : runFrames ((f :: rest).map Option.some) s
        = runFrames (rest.map Option.some) (onResults (Option.some f) s) := rfl
    rw [step]
    have := ih (onResults (Option.some f) s)
      (fun x hx => hcls x (by simp [hx])) (by rw [habs.2, hlast])
    exact ⟨this.1.trans habs.1, this.2⟩

/-- C5.  Edge triggering: feeding the stabilizer N > 1 consecutive frames
all classified as the same symbol `g`, starting from a state whose
remembered gesture differs from `g`, invokes the gesture-change callback
exactly once, with `g`. -/
theorem stabilizer_edge_trigger (g : GestureType) (s : TrackerState)
    (frames : List (List Landmark)) (hlen : 1 < frames.length)
    (hcls : ∀ f ∈ frames, detectGesture f = g)
    (hprev : s.lastGesture ≠ g) :
    (runFrames (frames.map Option.some) s).emitted = s.emitted ++ [g] := by
  cases frames with
  | nil => simp at hlen
  | cons f rest =>
    have hf : detectGesture f = g := hcls f (by simp)
    have hne : detectGesture f ≠ s.lastGesture := by
      rw [hf]; exact fun hgs => hprev hgs.symm
    have hemit := onResults_emit f s hne
    have step : runFrames ((f :: rest).map Option.some) s
        = runFrames (rest.map Option.some) (onResults (Option.some f) s) := rfl
    rw [step]
    have habs := runFrames_absorb g rest (onResults (Option.some f) s)
      (fun x hx => hcls x (by simp [hx])) (by rw [hemit.2, hf])
    rw [habs.1, hemit.1, hf]

/-- Witness for C5: two consecutive fist frames from the initial state
(whose remembered gesture is none) produce exactly one fist event. -/
theorem stabilizer_edge_trigger_witness :
    1 < [fistLandmarks, fistLandmarks].length ∧
    (runFrames ([fistLandmarks, fistLandmarks].map Option.some)
        initialTrackerState).emitted
      = initialTrackerState.emitted ++ [GestureType.fist] :=
  ⟨by norm_num,
   stabilizer_edge_trigger GestureType.fist initialTrackerState
     [fistLandmarks, fistLandmarks] (by norm_num)
     (by
       intro f hf
       simp only [List.mem_cons, List.not_mem_nil, or_false] at hf
       rcases hf with h | h <;> rw [h] <;> exact detectGesture_fistLandmarks)
     (by simp [initialTrackerState])⟩

/-- C10.  Tracking loss keeps the stabilizer memory: a hand-lost frame
clears `isTracking` and `handPosition` but leaves the remembered gesture
unchanged, so reacquiring the hand with the same classification fires no
gesture-change callback. -/
theorem tracking_loss_keeps_memory (s : TrackerState) (landmarks : List Landmark) :
    (onResults Option.none s).isTracking = false ∧
    (onResults Option.none s).handPosition = Option.none ∧
    (onResults Option.none s).lastGesture = s.lastGesture ∧
    (detectGesture landmarks = s.lastGesture →
      (onResults (Option.some landmarks) (onResults Option.none s)).emitted
        = s.emitted) := by
  refine ⟨rfl, rfl, rfl, fun h => ?_⟩
  exact (onResults_absorb landmarks (onResults Option.none s) h).1

/-- Witness for C10: losing the hand from the initial state and
reacquiring it with a frame classified none (the remembered gesture)
emits nothing. -/
theorem tracking_loss_keeps_memory_witness :
    detectGesture [] = initialTrackerState.lastGesture ∧
    (onResults (Option.some []) (onResults Option.none initialTrackerState)).emitted
      = initialTrackerState.emitted :=
  ⟨by rw [detectGesture_nil]; rfl,
   (tracking_loss_keeps_memory initialTrackerState []).2.2.2
     (by rw [detectGesture_nil]; rfl)⟩

/-! ## Claims about the transition choreographer -/

/-- Helper: at global progress 0 the clamped stagger is 0 for any
nonnegative delay. -/
theorem staggeredProgress_at_zero (d : ℚ) (hd0 : 0 ≤ d) :
    staggeredProgress 0 d = 0 := by
  unfold staggeredProgress
  have hle : (0 : ℚ) * (3 / 2) - d * (1 / 2) ≤ 0 := by linarith
  rw [min_eq_right (hle.trans (by norm_num)), max_eq_left hle]

/-- Helper: at global progress 1 the clamped stagger saturates at 1 for
any delay below 1. -/
theorem staggeredProgress_at_one (d : ℚ) (hd1 : d < 1) :
    staggeredProgress 1 d = 1 := by
  unfold staggeredProgress
  have hge : (1 : ℚ) ≤ 1 * (3 / 2) - d * (1 / 2) := by linarith
  rw [min_eq_left hge, max_eq_right (by norm_num)]

/-- Helper: the clamped stagger always lies in [0, 1]. -/
theorem staggeredProgress_mem (p d : ℚ) :
    0 ≤ staggeredProgress p d ∧ staggeredProgress p d ≤ 1 :=
  ⟨le_max_left 0 _, max_le (by norm_num) (min_le_left 1 _)⟩

/-- Helper: the clamped stagger is monotone in the global progress. -/
theorem staggeredProgress_mono (d : ℚ) {p₁ p₂ : ℚ} (h : p₁ ≤ p₂) :
    staggeredProgress p₁ d ≤ staggeredProgress p₂ d := by
  unfold staggeredProgress
  have : p₁ * (3 / 2) - d * (1 / 2) ≤ p₂ * (3 / 2) - d * (1 / 2) := by linarith
  exact max_le_max le_rfl (min_le_min le_rfl this)

/-- Helper: smoothstep is monotone on [0, 1]. -/
theorem smoothstep_mono {a b : ℚ} (ha : 0 ≤ a) (hab : a ≤ b) (hb : b ≤ 1) :
    smoothstep a ≤ smoothstep b := by
  unfold smoothstep
  nlinarith [mul_nonneg (sub_nonneg.mpr hab) (mul_nonneg ha (sub_nonneg.mpr (hab.trans hb))),
    mul_nonneg (sub_nonneg.mpr hab) (mul_nonneg (ha.trans hab) (sub_nonneg.mpr hb)),
    mul_nonneg (sub_nonneg.mpr hab) (sq_nonneg (a - b))]

/-- C6.  Choreographer boundary: for any element with delay fraction in
[0, 1), the staggered-smoothstep interpolated position equals the tree
position at global progress 0 and the galaxy position at global
progress 1 (exactly, hence within any epsilon). -/
theorem interpolated_boundary (treePos galaxyPos : Vec3) (d : ℚ)
    (hd0 : 0 ≤ d) (hd1 : d < 1) :
    interpolatedPosition treePos galaxyPos d 0 = treePos ∧
    interpolatedPosition treePos galaxyPos d 1 = galaxyPos := by
  have h0 : easedProgress 0 d = 0 := by
    simp [easedProgress, staggeredProgress_at_zero d hd0, smoothstep]
  have h1 : easedProgress 1 d = 1 := by
    simp [easedProgress, staggeredProgress_at_one d hd1, smoothstep]
    norm_num
  obtain ⟨tx, ty, tz⟩ := treePos
  obtain ⟨gx, gy, gz⟩ := galaxyPos
  constructor
  · simp only [interpolatedPosition, h0, mul_zero, add_zero]
  · simp only [interpolatedPosition, h1, mul_one, Vec3.mk.injEq]
    exact ⟨by ring, by ring, by ring⟩

/-- Witness for C6: a concrete element with delay 1/2 sits exactly at its
tree position at progress 0 and at its galaxy position at progress 1. -/
theorem interpolated_boundary_witness :
    interpolatedPosition ⟨1, 2, 3⟩ ⟨4, 5, 6⟩ (1 / 2) 0 = ⟨1, 2, 3⟩ ∧
    interpolatedPosition ⟨1, 2, 3⟩ ⟨4, 5, 6⟩ (1 / 2) 1 = ⟨4, 5, 6⟩ :=
  interpolated_boundary ⟨1, 2, 3⟩ ⟨4, 5, 6⟩ (1 / 2) (by norm_num) (by norm_num)

/-- C7.  Staggered smoothstep monotonicity: for any fixed delay in
[0, 1), the per-element eased progress is non-decreasing in the global
progress on [0, 1], is 0 at progress 0 and 1 at progress 1. -/
theorem eased_progress_monotone (d : ℚ) (hd0 : 0 ≤ d) (hd1 : d < 1) :
    (∀ p₁ p₂ : ℚ, 0 ≤ p₁ → p₁ ≤ p₂ → p₂ ≤ 1 →
      easedProgress p₁ d ≤ easedProgress p₂ d) ∧
    easedProgress 0 d = 0 ∧ easedProgress 1 d = 1 := by
  refine ⟨fun p₁ p₂ _ h12 _ => ?_, ?_, ?_⟩
  · exact smoothstep_mono (staggeredProgress_mem p₁ d).1
      (staggeredProgress_mono d h12) (staggeredProgress_mem p₂ d).2
  · simp [easedProgress, staggeredProgress_at_zero d hd0, smoothstep]
  · simp [easedProgress, staggeredProgress_at_one d hd1, smoothstep]
    norm_num

/-- Witness for C7: for delay 1/2 the eased progress at two concrete
ordered global progresses is ordered, and the endpoint values hold. -/
theorem eased_progress_monotone_witness :
    easedProgress (1 / 4 : ℚ) (1 / 2) ≤ easedProgress (3 / 4 : ℚ) (1 / 2) ∧
    easedProgress 0 (1 / 2 : ℚ) = 0 ∧ easedProgress 1 (1 / 2 : ℚ) = 1 :=
  ⟨(eased_progress_monotone (1 / 2) (by norm_num) (by norm_num)).1 (1 / 4) (3 / 4)
     (by norm_num) (by norm_num) (by norm_num),
   (eased_progress_monotone (1 / 2) (by norm_num) (by norm_num)).2.1,
   (eased_progress_monotone (1 / 2) (by norm_num) (by norm_num)).2.2⟩

/-! ## Claims about the camera controller -/

/-- Helper: closed form of the iterated camera smoothing — only the total
elapsed time matters. -/
theorem cameraRun_closed_form (target : ℝ) (dts : List ℝ) :
    ∀ actual : ℝ, cameraRun target actual dts
      = target - (target - actual) * Real.exp (-3 * dts.sum) := by
  induction dts with
  | nil =>
    intro a
    simp [cameraRun, Real.exp_zero]
  | cons dt rest ih =>
    intro a
    have step : cameraRun target a (dt :: rest)
        = cameraRun target (cameraStep target a dt) rest := rfl
    rw [step, ih, List.sum_cons]
    have hexp : Real.exp (-3 * (dt + rest.sum))
        = Real.exp (-3 * dt) * Real.exp (-3 * rest.sum) := by
      rw [← Real.exp_add]
      ring_nf
    rw [hexp]
    unfold cameraStep
    ring

/-- C8.  Frame-rate independence of the camera smoothing: with rate
constant 3, any sequence of frame deltas summing to 1 yields exactly the
same position as a single step of duration 1; for the spec example, one
step from 0 toward 10 lands at 10·(1 − e⁻³). -/
theorem camera_frame_rate_independence (target actual : ℝ) (dts : List ℝ)
    (hsum : dts.sum = 1) :
    cameraRun target actual dts = cameraRun target actual [1] ∧
    cameraRun 10 0 [1] = 10 * (1 - Real.exp (-3)) := by
  constructor
  · rw [cameraRun_closed_form, cameraRun_closed_form, hsum]
    norm_num
  · rw [cameraRun_closed_form]
    norm_num
    ring

/-- Witness for C8: two half-second steps land exactly where one
one-second step does. -/
theorem camera_frame_rate_independence_witness :
    ([(1 : ℝ) / 2, 1 / 2].sum = 1) ∧
    cameraRun 10 0 [(1 : ℝ) / 2, 1 / 2] = cameraRun 10 0 [1] :=
  ⟨by norm_num,
   (camera_frame_rate_independence 10 0 [(1 : ℝ) / 2, 1 / 2] (by norm_num)).1⟩
